import Mathlib

/-!
Shallow embedding of `src/app.py` from the Handwritten-notes-ai repository:
a Flask pipeline that rasterizes an uploaded PDF, runs OCR per page, calls
the Mathpix recognition service, renders a returned formula with matplotlib,
and composites each page into an output PDF with reportlab.

External capabilities (rasterizer, OCR, HTTP, matplotlib, filesystem) are
modelled as explicit outcome parameters; the code's own control flow and
arithmetic are translated directly.
-/

/-- Truthiness of an optional environment string, as Python evaluates
`not MATHPIX_APP_ID` on an `os.environ.get` result: `None` and the empty
string are falsy, every other string is truthy. -/
def truthy : Option String → Bool
  | none => false
  | some s => !s.isEmpty

/-- Configuration read once from the process environment (src/app.py lines 24-25). -/
structure Config where
  MATHPIX_APP_ID : Option String
  MATHPIX_APP_KEY : Option String

/-- A parsed JSON response body, restricted to the string-valued fields the
pipeline ever reads (`r.json()` as a dict of string keys and values). -/
abbrev Json := List (String × String)

/-- Python dict truthiness as used in `if mp_res and ...`: the empty dict is falsy. -/
def truthyJson (j : Json) : Bool := !j.isEmpty

/-- `d.get(k)` on the parsed response dict: the value at the first matching key,
or nothing. -/
def jsonGet (j : Json) (k : String) : Option String :=
  (j.find? (fun kv => kv.1 == k)).map (fun kv => kv.2)

/-- Outcome of the single HTTP POST that `requests.post` would perform:
either a response with a status code and parsed body, or a raised exception
(connection failure, timeout, unparsable body). -/
inductive HttpOutcome where
  | response (status : Nat) (body : Json)
  | failure (msg : String)

/-- What one invocation of `call_mathpix_image_b64` produces: the returned
value, whether a network request was actually issued, and how many error
diagnostics were logged via `app.logger.error`. -/
structure MathpixCall where
  value : Option Json
  networkCalled : Bool
  diagnostics : Nat
  deriving DecidableEq

/-- `call_mathpix_image_b64` (src/app.py lines 35-57): return `None`
immediately when either credential is missing or empty; otherwise issue one
request and return the parsed JSON on HTTP 200, or log an error and return
`None` on a non-200 status or a raised exception. -/
def call_mathpix_image_b64 (cfg : Config) (outcome : HttpOutcome) : MathpixCall :=
  if !truthy cfg.MATHPIX_APP_ID || !truthy cfg.MATHPIX_APP_KEY then
    { value := none, networkCalled := false, diagnostics := 0 }
  else
    match outcome with
    | .response status body =>
        if status == 200 then
          { value := some body, networkCalled := true, diagnostics := 0 }
        else
          { value := none, networkCalled := true, diagnostics := 1 }
    | .failure _ =>
        { value := none, networkCalled := true, diagnostics := 1 }

/-- A raster image with pixel dimensions, as PIL reports `img.size`;
dimensions are carried as rationals so the compositor's scaling arithmetic
is exact. -/
structure RasterImage where
  w : ℚ
  h : ℚ
  deriving DecidableEq

/-- Outcome of matplotlib typesetting inside `render_latex_to_png`: either
the produced RGBA image, or a raised exception (e.g. malformed LaTeX). -/
inductive RenderOutcome where
  | ok (img : RasterImage)
  | err (msg : String)

/-- What one invocation of `render_latex_to_png` produces: the returned
image or `None`, and how many error diagnostics were logged. -/
structure RenderCall where
  value : Option RasterImage
  diagnostics : Nat
  deriving DecidableEq

/-- `render_latex_to_png` (src/app.py lines 59-72): return the typeset image
on success; on a raised exception close the figure, log the error, and
return `None`. -/
def render_latex_to_png (latex : String) (outcome : RenderOutcome) : RenderCall :=
  match latex, outcome with
  | _, .ok img => { value := some img, diagnostics := 0 }
  | _, .err _ => { value := none, diagnostics := 1 }

/-- The external, page-scoped inputs consumed while processing one page of
the first loop: the OCR text `pytesseract` extracts, the outcome the
recognition request would have, and the outcome typesetting would have. -/
structure PageEnv where
  ocrText : String
  http : HttpOutcome
  render : RenderOutcome

/-- What one iteration of the first per-page loop (src/app.py lines 107-122)
appends to the parallel lists: the extracted text, the optional formula image
(`latex_png`), plus the observable effects of the iteration. -/
structure PageRecord where
  text : String
  mathImage : Option RasterImage
  networkCalled : Bool
  mathpixDiagnostics : Nat
  renderDiagnostics : Nat
  deriving DecidableEq

/-- One iteration of the first per-page loop (src/app.py lines 107-122):
call Mathpix, and only when the result dict is truthy and carries a truthy
`latex_simplified` field attempt to render it; `latex_png` stays `None`
otherwise. -/
def processPage (cfg : Config) (env : PageEnv) : PageRecord :=
  let mp := call_mathpix_image_b64 cfg env.http
  let rendered : Option RenderCall :=
    match mp.value with
    | none => none
    | some j =>
        if truthyJson j then
          match jsonGet j "latex_simplified" with
          | none => none
          | some latex =>
              if latex.isEmpty then none
              else some (render_latex_to_png latex env.render)
        else none
  { text := env.ocrText
    mathImage := match rendered with
      | none => none
      | some rc => rc.value
    networkCalled := mp.networkCalled
    mathpixDiagnostics := mp.diagnostics
    renderDiagnostics := match rendered with
      | none => 0
      | some rc => rc.diagnostics }

/-- Python `str.splitlines` restricted to the line breaks OCR output contains
(`\n`, `\r`, `\r\n`): split at each break, no trailing empty line for a
trailing break, and the empty string yields no lines. -/
def splitlinesAux : List Char → List Char → List String
  | [], acc => if acc.isEmpty then [] else [String.mk acc.reverse]
  | '\r' :: '\n' :: rest, acc => String.mk acc.reverse :: splitlinesAux rest []
  | '\n' :: rest, acc => String.mk acc.reverse :: splitlinesAux rest []
  | '\r' :: rest, acc => String.mk acc.reverse :: splitlinesAux rest []
  | c :: rest, acc => splitlinesAux rest (c :: acc)

/-- `text.splitlines()` on a whole extracted-text string. -/
def splitlines (s : String) : List String := splitlinesAux s.data []

/-- Python slicing `s[:n]` by code points: the first `n` characters. -/
def pySlice (s : String) (n : Nat) : String := String.mk (s.data.take n)

/-- Geometry of one `drawImage` call: lower-left corner and drawn size in points. -/
structure DrawnImage where
  x : ℚ
  y : ℚ
  w : ℚ
  h : ℚ
  deriving DecidableEq

/-- ReportLab A4 page width in points: 210mm at 72pt/inch, 25.4mm/inch. -/
def A4_width : ℚ := 75600 / 127

/-- ReportLab A4 page height in points: 297mm at 72pt/inch, 25.4mm/inch. -/
def A4_height : ℚ := 106920 / 127

/-- Formula placement (src/app.py lines 144-149): cap the scale factor at 1,
limit the drawn width to 45% of the page width, and anchor the image 30pt
from the right edge and 60pt below the top edge. -/
def placeFormula (W H : ℚ) (img : RasterImage) : DrawnImage :=
  let max_w := W * (45 / 100)
  let scale := min 1 (max_w / img.w)
  let draw_w := img.w * scale
  let draw_h := img.h * scale
  { x := W - draw_w - 30, y := H - draw_h - 60, w := draw_w, h := draw_h }

/-- One page of the output document, as the second loop draws it. -/
structure OutputPage where
  background : DrawnImage
  formula : Option DrawnImage
  textOrigin : ℚ × ℚ
  textLines : List String
  font : String
  fontSize : ℚ
  deriving DecidableEq

/-- One iteration of the second per-page loop (src/app.py lines 139-156):
draw the page raster full-bleed, overlay the formula image when present,
then draw every extracted line sliced to its first 200 characters from a
fixed origin in the chosen font at 12pt, and emit the page. -/
def compositePage (chosen_font : String) (rec : PageRecord) : OutputPage :=
  { background := { x := 0, y := 0, w := A4_width, h := A4_height }
    formula := rec.mathImage.map (placeFormula A4_width A4_height)
    textOrigin := (30, A4_height - 40)
    textLines := (splitlines rec.text).map (fun line => pySlice line 200)
    font := chosen_font
    fontSize := 12 }

/-- `ALLOWED_EXTENSIONS` (src/app.py line 15). -/
def ALLOWED_EXTENSIONS : List String := ["pdf"]

/-- `filename.rsplit('.', 1)[1]`: the characters after the last dot. -/
def extAfterLastDot (s : String) : String :=
  String.mk ((s.data.reverse.takeWhile (fun c => c ≠ '.')).reverse)

/-- `filename.rsplit('.', 1)[0]`: the characters before the last dot, or the
whole string when there is none. -/
def stemBeforeLastDot (s : String) : String :=
  if s.data.contains '.' then
    String.mk (((s.data.reverse.dropWhile (fun c => c ≠ '.')).drop 1).reverse)
  else s

/-- `s.lower()` on an ASCII extension: lower-case every character. -/
def pyToLower (s : String) : String := String.mk (s.data.map Char.toLower)

/-- `allowed_file` (src/app.py lines 28-29): the name contains a dot and its
lower-cased last extension is an allowed one. -/
def allowed_file (filename : String) : Bool :=
  filename.data.contains '.' &&
    ALLOWED_EXTENSIONS.contains (pyToLower (extAfterLastDot filename))

/-- The parts of one POST to `/upload` the handler inspects: whether a
`pdf` part exists, its filename, and the font filename when a `font` part
with a non-empty filename was sent. -/
structure UploadRequest where
  hasPdfPart : Bool
  pdfFilename : String
  fontFilename : Option String

/-- Outcome of `convert_from_path` (the external rasterizer): the ordered
pages, each bundled with the page-scoped external outcomes its processing
will consume, or a raised exception. -/
inductive RasterOutcome where
  | ok (pages : List PageEnv)
  | err (msg : String)

/-- The HTTP-level result of the `upload` handler: a flashed message with a
redirect back to the form, or a redirect to the download of the finished
document. -/
inductive UploadResult where
  | errorRedirect (flashMessage : String)
  | success (outName : String) (doc : List OutputPage) (flashMessage : String)

/-- Filesystem and logging effects of one `upload` request, observed after
the handler returns: which files were written to the outputs directory, how
many per-page PNGs and formula temp files are still on disk, how many
recognition network calls were made, and whether a font-registration error
was logged. -/
structure UploadEffects where
  outputsWritten : List String
  uploadsPagePngsRemaining : Nat
  formulaTempFilesRemaining : Nat
  networkCalls : Nat
  fontRegisterDiagnostics : Nat
  deriving DecidableEq

/-- Effects of a request that aborts before any page is rasterized. -/
def noEffects : UploadEffects :=
  { outputsWritten := []
    uploadsPagePngsRemaining := 0
    formulaTempFilesRemaining := 0
    networkCalls := 0
    fontRegisterDiagnostics := 0 }

/-- The font chosen for the whole document (src/app.py lines 129-137):
`UserHand` when a font file was supplied and registers, `Helvetica` when
registration raises or no font file was supplied. -/
def chosenFont (req : UploadRequest) (fontRegisters : Bool) : String :=
  match req.fontFilename with
  | some _ => if fontRegisters then "UserHand" else "Helvetica"
  | none => "Helvetica"

/-- `upload` (src/app.py lines 74-160): validate the request, rasterize, run
the first per-page loop, pick the font, run the compositing loop, save the
canvas, and redirect to the download. Each page's PNG is saved to the
uploads directory and never deleted; each formula image is written to a
`delete=False` temp file and never deleted; the output file is written only
by the final `c.save()`. -/
def upload (cfg : Config) (req : UploadRequest) (raster : RasterOutcome)
    (fontRegisters : Bool) : UploadResult × UploadEffects :=
  if !req.hasPdfPart then
    (.errorRedirect "No PDF file part", noEffects)
  else if req.pdfFilename == "" then
    (.errorRedirect "No selected file", noEffects)
  else if !allowed_file req.pdfFilename then
    (.errorRedirect "Invalid file type", noEffects)
  else
    match raster with
    | .err e => (.errorRedirect ("Error converting PDF to images: " ++ e), noEffects)
    | .ok pages =>
        let records := pages.map (processPage cfg)
        let font := chosenFont req fontRegisters
        let doc := records.map (compositePage font)
        let out_name := stemBeforeLastDot req.pdfFilename ++ "_converted.pdf"
        (.success out_name doc "Conversion finished. Download below.",
         { outputsWritten := [out_name]
           uploadsPagePngsRemaining := pages.length
           formulaTempFilesRemaining := (records.filter (fun r => r.mathImage.isSome)).length
           networkCalls := (records.filter (fun r => r.networkCalled)).length
           fontRegisterDiagnostics :=
             match req.fontFilename with
             | some _ => if fontRegisters then 0 else 1
             | none => 0 })

/-- Concrete sample request: a PDF part named `notes.pdf`, no font file. -/
def sampleReq : UploadRequest :=
  { hasPdfPart := true, pdfFilename := "notes.pdf", fontFilename := none }

/-- Concrete sample request that also uploads a font file. -/
def sampleReqFont : UploadRequest :=
  { hasPdfPart := true, pdfFilename := "notes.pdf", fontFilename := some "hand.ttf" }

/-- Concrete configuration with both recognition credentials present. -/
def credCfg : Config :=
  { MATHPIX_APP_ID := some "app-id", MATHPIX_APP_KEY := some "app-key" }

/-- Concrete configuration with a missing credential. -/
def noCredCfg : Config :=
  { MATHPIX_APP_ID := none, MATHPIX_APP_KEY := some "app-key" }

/-- Concrete recognition response body that carries a formula. -/
def sampleBody : Json := [("latex_simplified", "x^2"), ("confidence", "1")]

/-- Concrete 200-status response body with no formula field at all. -/
def noFieldBody : Json := [("confidence", "1")]

/-- Concrete formula image, 400 by 120 pixels. -/
def sampleImg : RasterImage := { w := 400, h := 120 }

/-- Concrete page whose recognition and rendering both succeed. -/
def sampleEnv : PageEnv :=
  { ocrText := "hello\nworld", http := .response 200 sampleBody, render := .ok sampleImg }

/-- Concrete page whose recognition succeeds but whose typesetting raises. -/
def renderFailEnv : PageEnv :=
  { ocrText := "hello", http := .response 200 sampleBody, render := .err "bad latex" }

/-- Concrete page whose recognition request comes back with HTTP 500. -/
def statusFailEnv : PageEnv :=
  { ocrText := "hello", http := .response 500 sampleBody, render := .ok sampleImg }

/-- Concrete 200-status response body whose formula field is the empty string. -/
def emptyFormulaBody : Json := [("latex_simplified", ""), ("confidence", "1")]

/-- Concrete formula image narrower than 45% of the A4 page width. -/
def narrowImg : RasterImage := { w := 100, h := 40 }

/-- Concrete extracted-text line of 250 identical characters. -/
def longLine : String := String.mk (List.replicate 250 'a')

/-- Concrete page record holding one long line and one short line of text. -/
def longTextRecord : PageRecord :=
  { text := longLine ++ "\nshort", mathImage := none, networkCalled := false,
    mathpixDiagnostics := 0, renderDiagnostics := 0 }

/-- Concrete request whose file has a disallowed extension. -/
def badExtReq : UploadRequest :=
  { hasPdfPart := true, pdfFilename := "notes.txt", fontFilename := none }

/-- A valid request with a successful rasterization runs the whole pipeline:
this characterizes the handler's result and effects on that path. -/
theorem upload_ok (cfg : Config) (req : UploadRequest) (pages : List PageEnv)
    (fontRegisters : Bool) (h1 : req.hasPdfPart = true)
    (h2 : req.pdfFilename ≠ "") (h3 : allowed_file req.pdfFilename = true) :
    upload cfg req (.ok pages) fontRegisters =
      (.success (stemBeforeLastDot req.pdfFilename ++ "_converted.pdf")
        ((pages.map (processPage cfg)).map (compositePage (chosenFont req fontRegisters)))
        "Conversion finished. Download below.",
       { outputsWritten := [stemBeforeLastDot req.pdfFilename ++ "_converted.pdf"]
         uploadsPagePngsRemaining := pages.length
         formulaTempFilesRemaining :=
           ((pages.map (processPage cfg)).filter (fun r => r.mathImage.isSome)).length
         networkCalls :=
           ((pages.map (processPage cfg)).filter (fun r => r.networkCalled)).length
         fontRegisterDiagnostics :=
           match req.fontFilename with
           | some _ => if fontRegisters then 0 else 1
           | none => 0 }) := by
  simp [upload, h1, h2, h3]

/-- With a missing or empty credential the recognizer short-circuits on every
outcome. -/
theorem call_mathpix_noCred (cfg : Config)
    (hcred : truthy cfg.MATHPIX_APP_ID = false ∨ truthy cfg.MATHPIX_APP_KEY = false)
    (outcome : HttpOutcome) :
    call_mathpix_image_b64 cfg outcome =
      { value := none, networkCalled := false, diagnostics := 0 } := by
  rcases hcred with h | h <;> simp [call_mathpix_image_b64, h]

/-- With a missing or empty credential a page record carries only its OCR text. -/
theorem processPage_noCred (cfg : Config)
    (hcred : truthy cfg.MATHPIX_APP_ID = false ∨ truthy cfg.MATHPIX_APP_KEY = false)
    (env : PageEnv) :
    processPage cfg env =
      { text := env.ocrText, mathImage := none, networkCalled := false,
        mathpixDiagnostics := 0, renderDiagnostics := 0 } := by
  simp [processPage, call_mathpix_noCred cfg hcred env.http]

/-- C1: a valid upload of an N-page source succeeds and produces exactly N
output pages in page order; the per-page record list is index-aligned with the
rasterized pages, each output page is the composite of its own page's record,
and every page's output page carries its text lines even when its recognition
or rendering produced nothing. -/
theorem c1_page_count_alignment (cfg : Config) (req : UploadRequest)
    (pages : List PageEnv) (fontRegisters : Bool) (h1 : req.hasPdfPart = true)
    (h2 : req.pdfFilename ≠ "") (h3 : allowed_file req.pdfFilename = true) :
    ∃ name msg doc,
      (upload cfg req (.ok pages) fontRegisters).1 = .success name doc msg ∧
      doc.length = pages.length ∧
      (pages.map (processPage cfg)).length = pages.length ∧
      (∀ i (hi : i < pages.length) (hd : i < doc.length),
        doc.get ⟨i, hd⟩ =
          compositePage (chosenFont req fontRegisters)
            (processPage cfg (pages.get ⟨i, hi⟩))) ∧
      (∀ i (hi : i < pages.length) (hd : i < doc.length),
        (doc.get ⟨i, hd⟩).textLines =
          (splitlines (processPage cfg (pages.get ⟨i, hi⟩)).text).map
            (fun line => pySlice line 200)) := by
  have h := upload_ok cfg req pages fontRegisters h1 h2 h3
  refine ⟨_, _, _, by rw [h], by simp, by simp, ?_, ?_⟩
  · intro i hi hd
    simp [List.get_eq_getElem, List.getElem_map]
  · intro i hi hd
    simp [List.get_eq_getElem, List.getElem_map, compositePage]

/-- C1 witness: the alignment theorem applied to a concrete one-page upload. -/
theorem c1_witness :
    sampleReq.hasPdfPart = true ∧ sampleReq.pdfFilename ≠ "" ∧
    allowed_file sampleReq.pdfFilename = true ∧
    (∃ name msg doc,
      (upload noCredCfg sampleReq (.ok [sampleEnv]) true).1 = .success name doc msg ∧
      doc.length = [sampleEnv].length ∧
      ([sampleEnv].map (processPage noCredCfg)).length = [sampleEnv].length ∧
      (∀ i (hi : i < [sampleEnv].length) (hd : i < doc.length),
        doc.get ⟨i, hd⟩ =
          compositePage (chosenFont sampleReq true)
            (processPage noCredCfg ([sampleEnv].get ⟨i, hi⟩))) ∧
      (∀ i (hi : i < [sampleEnv].length) (hd : i < doc.length),
        (doc.get ⟨i, hd⟩).textLines =
          (splitlines (processPage noCredCfg ([sampleEnv].get ⟨i, hi⟩)).text).map
            (fun line => pySlice line 200))) :=
  ⟨rfl, by decide, by decide,
    c1_page_count_alignment noCredCfg sampleReq [sampleEnv] true rfl (by decide) (by decide)⟩

/-- With a missing or empty credential no record reports a network call and no
record carries a formula image. -/
theorem noCred_records_inert (cfg : Config)
    (hcred : truthy cfg.MATHPIX_APP_ID = false ∨ truthy cfg.MATHPIX_APP_KEY = false)
    (pages : List PageEnv) :
    ((pages.map (processPage cfg)).filter (fun r => r.networkCalled)).length = 0 ∧
    ∀ r ∈ pages.map (processPage cfg), r.mathImage = none := by
  induction pages with
  | nil => exact ⟨rfl, by simp⟩
  | cons e rest ih =>
      constructor
      · simpa [processPage_noCred cfg hcred e, List.filter_cons] using ih.1
      · intro r hr
        simp only [List.map_cons, List.mem_cons] at hr
        rcases hr with rfl | hr
        · simp [processPage_noCred cfg hcred e]
        · exact ih.2 r hr

/-- C2: when a recognition credential is missing or empty, the recognizer
returns none immediately on every outcome, the whole conversion issues zero
network calls, and every output page of the produced document has no formula
overlay. -/
theorem c2_no_credentials (cfg : Config) (req : UploadRequest) (pages : List PageEnv)
    (fontRegisters : Bool)
    (hcred : truthy cfg.MATHPIX_APP_ID = false ∨ truthy cfg.MATHPIX_APP_KEY = false)
    (h1 : req.hasPdfPart = true) (h2 : req.pdfFilename ≠ "")
    (h3 : allowed_file req.pdfFilename = true) :
    (∀ outcome, call_mathpix_image_b64 cfg outcome =
      { value := none, networkCalled := false, diagnostics := 0 }) ∧
    (upload cfg req (.ok pages) fontRegisters).2.networkCalls = 0 ∧
    ∃ name msg doc,
      (upload cfg req (.ok pages) fontRegisters).1 = .success name doc msg ∧
      ∀ p ∈ doc, p.formula = none := by
  obtain ⟨hnet, hnone⟩ := noCred_records_inert cfg hcred pages
  have h := upload_ok cfg req pages fontRegisters h1 h2 h3
  refine ⟨call_mathpix_noCred cfg hcred, by rw [h]; exact hnet, _, _, _, by rw [h], ?_⟩
  intro p hp
  simp only [List.mem_map] at hp
  obtain ⟨r, hr, rfl⟩ := hp
  obtain ⟨e, he, rfl⟩ := hr
  simp [compositePage, hnone (processPage cfg e) (List.mem_map_of_mem _ he)]

/-- C2 witness: the no-credentials theorem applied to a concrete upload whose
page would otherwise have produced a formula. -/
theorem c2_witness :
    (truthy noCredCfg.MATHPIX_APP_ID = false ∨ truthy noCredCfg.MATHPIX_APP_KEY = false) ∧
    ((∀ outcome, call_mathpix_image_b64 noCredCfg outcome =
      { value := none, networkCalled := false, diagnostics := 0 }) ∧
    (upload noCredCfg sampleReq (.ok [sampleEnv]) false).2.networkCalls = 0 ∧
    ∃ name msg doc,
      (upload noCredCfg sampleReq (.ok [sampleEnv]) false).1 = .success name doc msg ∧
      ∀ p ∈ doc, p.formula = none) :=
  ⟨by decide,
    c2_no_credentials noCredCfg sampleReq [sampleEnv] false (by decide) rfl
      (by decide) (by decide)⟩

/-- C3 counterexample: with both credentials configured, a 200-status response
that lacks the formula field makes call_mathpix_image_b64 return the parsed
body rather than none, and it records no diagnostic. -/
theorem c3_counterexample :
    (call_mathpix_image_b64 credCfg (.response 200 noFieldBody)).value = some noFieldBody ∧
    (call_mathpix_image_b64 credCfg (.response 200 noFieldBody)).diagnostics = 0 := by
  decide

/-- C3 (amended): with credentials configured, a non-success HTTP status or a
request failure/timeout makes call_mathpix_image_b64 return none and record one
diagnostic; a 200 response lacking the formula field instead makes it return
the parsed body with no diagnostic; in every one of these cases the pipeline
continues and the page's record carries no formula image. -/
theorem c3_recognition_errors (cfg : Config) (env : PageEnv)
    (hid : truthy cfg.MATHPIX_APP_ID = true)
    (hkey : truthy cfg.MATHPIX_APP_KEY = true) :
    (∀ status body, status ≠ 200 →
      call_mathpix_image_b64 cfg (.response status body) =
        { value := none, networkCalled := true, diagnostics := 1 }) ∧
    (∀ msg, call_mathpix_image_b64 cfg (.failure msg) =
      { value := none, networkCalled := true, diagnostics := 1 }) ∧
    (∀ body, jsonGet body "latex_simplified" = none →
      call_mathpix_image_b64 cfg (.response 200 body) =
        { value := some body, networkCalled := true, diagnostics := 0 }) ∧
    (((∃ status body, env.http = .response status body ∧
        (status ≠ 200 ∨ jsonGet body "latex_simplified" = none)) ∨
      (∃ msg, env.http = .failure msg)) →
      (processPage cfg env).mathImage = none) := by
  refine ⟨?_, ?_, ?_, ?_⟩
  · intro status body hs
    simp [call_mathpix_image_b64, hid, hkey, hs]
  · intro msg
    simp [call_mathpix_image_b64, hid, hkey]
  · intro body hjg
    simp [call_mathpix_image_b64, hid, hkey]
  · rintro (⟨status, body, hhttp, hbad⟩ | ⟨msg, hhttp⟩)
    · rcases hbad with hs | hjg
      · simp [processPage, hhttp, call_mathpix_image_b64, hid, hkey, hs]
      · by_cases hst : status = 200
        · subst hst
          simp [processPage, hhttp, call_mathpix_image_b64, hid, hkey, hjg, ite_self]
        · simp [processPage, hhttp, call_mathpix_image_b64, hid, hkey, hst]
    · simp [processPage, hhttp, call_mathpix_image_b64, hid, hkey]

/-- C3 witness: the amended theorem applied to configured credentials and a
page whose recognition request came back with HTTP 500. -/
theorem c3_witness :
    truthy credCfg.MATHPIX_APP_ID = true ∧ truthy credCfg.MATHPIX_APP_KEY = true ∧
    ((∀ status body, status ≠ 200 →
      call_mathpix_image_b64 credCfg (.response status body) =
        { value := none, networkCalled := true, diagnostics := 1 }) ∧
    (∀ msg, call_mathpix_image_b64 credCfg (.failure msg) =
      { value := none, networkCalled := true, diagnostics := 1 }) ∧
    (∀ body, jsonGet body "latex_simplified" = none →
      call_mathpix_image_b64 credCfg (.response 200 body) =
        { value := some body, networkCalled := true, diagnostics := 0 }) ∧
    (((∃ status body, statusFailEnv.http = .response status body ∧
        (status ≠ 200 ∨ jsonGet body "latex_simplified" = none)) ∨
      (∃ msg, statusFailEnv.http = .failure msg)) →
      (processPage credCfg statusFailEnv).mathImage = none)) :=
  ⟨by decide, by decide,
    c3_recognition_errors credCfg statusFailEnv (by decide) (by decide)⟩

/-- C4: when recognition yields a non-empty formula but typesetting raises,
the renderer returns none and logs one diagnostic instead of raising, the
page's record carries no formula image, and the composited output page is
still produced with the extracted text and no formula overlay. -/
theorem c4_render_failure (cfg : Config) (env : PageEnv) (body : Json)
    (latex msg : String)
    (hid : truthy cfg.MATHPIX_APP_ID = true)
    (hkey : truthy cfg.MATHPIX_APP_KEY = true)
    (hhttp : env.http = .response 200 body)
    (hfield : jsonGet body "latex_simplified" = some latex)
    (hne : latex.isEmpty = false)
    (hrender : env.render = .err msg) :
    render_latex_to_png latex env.render = { value := none, diagnostics := 1 } ∧
    (processPage cfg env).mathImage = none ∧
    (processPage cfg env).renderDiagnostics = 1 ∧
    ∀ font, (compositePage font (processPage cfg env)).formula = none ∧
      (compositePage font (processPage cfg env)).textLines =
        (splitlines env.ocrText).map (fun line => pySlice line 200) := by
  have hb : truthyJson body = true := by
    cases body with
    | nil => simp [jsonGet] at hfield
    | cons kv rest => rfl
  refine ⟨by simp [render_latex_to_png, hrender], ?_, ?_, ?_⟩
  · simp [processPage, hhttp, call_mathpix_image_b64, hid, hkey, hb, hfield, hne,
      render_latex_to_png, hrender]
  · simp [processPage, hhttp, call_mathpix_image_b64, hid, hkey, hb, hfield, hne,
      render_latex_to_png, hrender]
  · intro font
    constructor
    · simp [compositePage, processPage, hhttp, call_mathpix_image_b64, hid, hkey, hb,
        hfield, hne, render_latex_to_png, hrender]
    · simp [compositePage, processPage]

/-- C4 witness: the render-failure theorem applied to a concrete page whose
recognition returned the formula and whose typesetting raised. -/
theorem c4_witness :
    truthy credCfg.MATHPIX_APP_ID = true ∧ truthy credCfg.MATHPIX_APP_KEY = true ∧
    renderFailEnv.http = .response 200 sampleBody ∧
    jsonGet sampleBody "latex_simplified" = some "x^2" ∧
    ("x^2").isEmpty = false ∧
    renderFailEnv.render = .err "bad latex" ∧
    (render_latex_to_png "x^2" renderFailEnv.render =
      { value := none, diagnostics := 1 } ∧
    (processPage credCfg renderFailEnv).mathImage = none ∧
    (processPage credCfg renderFailEnv).renderDiagnostics = 1 ∧
    ∀ font, (compositePage font (processPage credCfg renderFailEnv)).formula = none ∧
      (compositePage font (processPage credCfg renderFailEnv)).textLines =
        (splitlines renderFailEnv.ocrText).map (fun line => pySlice line 200)) :=
  ⟨by decide, by decide, rfl, by decide, by decide, rfl,
    c4_render_failure credCfg renderFailEnv sampleBody "x^2" "bad latex"
      (by decide) (by decide) rfl (by decide) (by decide) rfl⟩

/-- C5: for a present formula image of positive pixel width on a page of
positive width, the drawn width is the image width times min(1, 0.45W/w): an
image wider than 45% of the page width is drawn at exactly 45% of the page
width, a narrower one at its original size, never upscaled; the image's right
edge sits 30pt from the page's right edge and its top edge 60pt below the
page's top edge; the pipeline applies this placement on the A4 page to every
present formula image. -/
theorem c5_formula_placement (W H : ℚ) (img : RasterImage)
    (hW : 0 < W) (hw : 0 < img.w) :
    (W * (45 / 100) < img.w → (placeFormula W H img).w = W * (45 / 100)) ∧
    (img.w ≤ W * (45 / 100) → (placeFormula W H img).w = img.w) ∧
    (placeFormula W H img).w ≤ img.w ∧
    (placeFormula W H img).x + (placeFormula W H img).w = W - 30 ∧
    (placeFormula W H img).y + (placeFormula W H img).h = H - 60 ∧
    (∀ font rec, rec.mathImage = some img →
      (compositePage font rec).formula =
        some (placeFormula A4_width A4_height img)) := by
  have hw0 : img.w ≠ 0 := ne_of_gt hw
  refine ⟨?_, ?_, ?_, ?_, ?_, ?_⟩
  · intro hgt
    have hlt : W * (45 / 100) / img.w < 1 := (div_lt_one hw).mpr hgt
    have key : img.w * (W * (45 / 100) / img.w) = W * (45 / 100) := by
      field_simp
      ring
    simpa [placeFormula, min_eq_right hlt.le] using key
  · intro hle
    have hge : 1 ≤ W * (45 / 100) / img.w := (one_le_div hw).mpr hle
    simp [placeFormula, min_eq_left hge]
  · have hs : min 1 (W * (45 / 100) / img.w) ≤ 1 := min_le_left _ _
    have := mul_le_mul_of_nonneg_left hs hw.le
    simpa [placeFormula] using this
  · simp [placeFormula]
    ring
  · simp [placeFormula]
    ring
  · intro font rec hrec
    simp [compositePage, hrec]

/-- C5 witness: the placement theorem applied on the A4 page to a concrete
image wider than 45% of the page width. -/
theorem c5_witness :
    (0 : ℚ) < A4_width ∧ (0 : ℚ) < sampleImg.w ∧
    ((A4_width * (45 / 100) < sampleImg.w →
      (placeFormula A4_width A4_height sampleImg).w = A4_width * (45 / 100)) ∧
    (sampleImg.w ≤ A4_width * (45 / 100) →
      (placeFormula A4_width A4_height sampleImg).w = sampleImg.w) ∧
    (placeFormula A4_width A4_height sampleImg).w ≤ sampleImg.w ∧
    (placeFormula A4_width A4_height sampleImg).x +
      (placeFormula A4_width A4_height sampleImg).w = A4_width - 30 ∧
    (placeFormula A4_width A4_height sampleImg).y +
      (placeFormula A4_width A4_height sampleImg).h = A4_height - 60 ∧
    (∀ font rec, rec.mathImage = some sampleImg →
      (compositePage font rec).formula =
        some (placeFormula A4_width A4_height sampleImg))) ∧
    A4_width * (45 / 100) < sampleImg.w :=
  ⟨by norm_num [A4_width], by norm_num [sampleImg],
    c5_formula_placement A4_width A4_height sampleImg (by norm_num [A4_width])
      (by norm_num [sampleImg]),
    by norm_num [A4_width, sampleImg]⟩

/-- C6: the compositor emits exactly one output line per input line of the
page's extracted text; each output line is exactly the first 200 characters of
its input line, so a line of at most 200 characters is emitted unchanged and a
longer line is cut to exactly its first 200 characters with nothing appended. -/
theorem c6_line_truncation (font : String) (rec : PageRecord) (line : String) :
    (compositePage font rec).textLines =
      (splitlines rec.text).map (fun l => pySlice l 200) ∧
    ((compositePage font rec).textLines).length = (splitlines rec.text).length ∧
    (line.length ≤ 200 → pySlice line 200 = line) ∧
    (200 < line.length → (pySlice line 200).length = 200 ∧
      (pySlice line 200).data = line.data.take 200) := by
  refine ⟨by simp [compositePage], by simp [compositePage], ?_, ?_⟩
  · intro hle
    have h : line.data.take 200 = line.data := List.take_of_length_le hle
    simp [pySlice, h]
  · intro hgt
    have hlen : (line.data.take 200).length = 200 := by
      simp only [List.length_take]
      have : 200 < line.data.length := hgt
      omega
    exact ⟨hlen, rfl⟩

set_option maxRecDepth 8000 in
/-- C6 witness: the truncation theorem applied to a record with a 250-character
line followed by a short line, and to both a long and a short concrete line. -/
theorem c6_witness :
    200 < longLine.length ∧
    ((pySlice longLine 200).length = 200 ∧
      (pySlice longLine 200).data = longLine.data.take 200) ∧
    ("short").length ≤ 200 ∧
    pySlice "short" 200 = "short" ∧
    (compositePage "Helvetica" longTextRecord).textLines =
      (splitlines longTextRecord.text).map (fun l => pySlice l 200) ∧
    ((compositePage "Helvetica" longTextRecord).textLines).length =
      (splitlines longTextRecord.text).length :=
  ⟨by decide,
    (c6_line_truncation "Helvetica" longTextRecord longLine).2.2.2 (by decide),
    by decide,
    (c6_line_truncation "Helvetica" longTextRecord "short").2.2.1 (by decide),
    (c6_line_truncation "Helvetica" longTextRecord longLine).1,
    (c6_line_truncation "Helvetica" longTextRecord longLine).2.1⟩

/-- C7: when a supplied font file fails to register, the failure is logged once
and the conversion still succeeds with every output page set in Helvetica;
when no font file is supplied the same Helvetica default is used whatever the
registration outcome would have been. -/
theorem c7_font_fallback (cfg : Config) (req : UploadRequest) (pages : List PageEnv)
    (h1 : req.hasPdfPart = true) (h2 : req.pdfFilename ≠ "")
    (h3 : allowed_file req.pdfFilename = true) :
    (∀ fontFile, req.fontFilename = some fontFile →
      (upload cfg req (.ok pages) false).2.fontRegisterDiagnostics = 1 ∧
      ∃ name msg doc,
        (upload cfg req (.ok pages) false).1 = .success name doc msg ∧
        ∀ p ∈ doc, p.font = "Helvetica") ∧
    (req.fontFilename = none →
      ∀ fontRegisters,
        ∃ name msg doc,
          (upload cfg req (.ok pages) fontRegisters).1 = .success name doc msg ∧
          ∀ p ∈ doc, p.font = "Helvetica") := by
  constructor
  · intro fontFile hf
    have h := upload_ok cfg req pages false h1 h2 h3
    refine ⟨by rw [h]; simp [hf], _, _, _, by rw [h], ?_⟩
    intro p hp
    simp only [List.mem_map] at hp
    obtain ⟨r, hr, rfl⟩ := hp
    simp [compositePage, chosenFont, hf]
  · intro hf fontRegisters
    have h := upload_ok cfg req pages fontRegisters h1 h2 h3
    refine ⟨_, _, _, by rw [h], ?_⟩
    intro p hp
    simp only [List.mem_map] at hp
    obtain ⟨r, hr, rfl⟩ := hp
    simp [compositePage, chosenFont, hf]

/-- C7 witness: the font-fallback theorem applied to a request that uploads a
font file, with registration failing. -/
theorem c7_witness :
    sampleReqFont.fontFilename = some "hand.ttf" ∧
    ((∀ fontFile, sampleReqFont.fontFilename = some fontFile →
      (upload noCredCfg sampleReqFont (.ok [sampleEnv]) false).2.fontRegisterDiagnostics = 1 ∧
      ∃ name msg doc,
        (upload noCredCfg sampleReqFont (.ok [sampleEnv]) false).1 = .success name doc msg ∧
        ∀ p ∈ doc, p.font = "Helvetica") ∧
    (sampleReqFont.fontFilename = none →
      ∀ fontRegisters,
        ∃ name msg doc,
          (upload noCredCfg sampleReqFont (.ok [sampleEnv]) fontRegisters).1 =
            .success name doc msg ∧
          ∀ p ∈ doc, p.font = "Helvetica")) :=
  ⟨rfl,
    c7_font_fallback noCredCfg sampleReqFont [sampleEnv] rfl (by decide) (by decide)⟩

/-- C8: each fatal upload failure — missing PDF part, empty selection,
unsupported extension, or a rasterization error — flashes a user-visible
message and redirects back to the form, creates no entry in the outputs
directory, and produces no partial output file or any other effect. -/
theorem c8_fatal_no_output (cfg : Config) (req : UploadRequest)
    (raster : RasterOutcome) (fontRegisters : Bool) :
    (req.hasPdfPart = false →
      upload cfg req raster fontRegisters =
        (.errorRedirect "No PDF file part", noEffects)) ∧
    (req.hasPdfPart = true → req.pdfFilename = "" →
      upload cfg req raster fontRegisters =
        (.errorRedirect "No selected file", noEffects)) ∧
    (req.hasPdfPart = true → req.pdfFilename ≠ "" →
      allowed_file req.pdfFilename = false →
      upload cfg req raster fontRegisters =
        (.errorRedirect "Invalid file type", noEffects)) ∧
    (∀ msg, req.hasPdfPart = true → req.pdfFilename ≠ "" →
      allowed_file req.pdfFilename = true → raster = .err msg →
      upload cfg req raster fontRegisters =
        (.errorRedirect ("Error converting PDF to images: " ++ msg), noEffects)) ∧
    noEffects.outputsWritten = [] := by
  refine ⟨?_, ?_, ?_, ?_, rfl⟩
  · intro h
    simp [upload, h]
  · intro ha hb
    simp [upload, ha, hb]
  · intro ha hb hc
    simp [upload, ha, hb, hc]
  · intro msg ha hb hc hr
    simp [upload, ha, hb, hc, hr]

/-- C8 witness: the fatal-failure theorem applied to a concrete upload with a
disallowed extension, showing the rejection message and untouched outputs. -/
theorem c8_witness :
    badExtReq.hasPdfPart = true ∧ badExtReq.pdfFilename ≠ "" ∧
    allowed_file badExtReq.pdfFilename = false ∧
    upload credCfg badExtReq (.ok [sampleEnv]) true =
      (.errorRedirect "Invalid file type", noEffects) ∧
    noEffects.outputsWritten = [] :=
  ⟨rfl, by decide, by decide,
    (c8_fatal_no_output credCfg badExtReq (.ok [sampleEnv]) true).2.2.1 rfl
      (by decide) (by decide),
    rfl⟩

/-- C9 evaluated at the failing input: a successful one-page conversion whose
page produced a formula image finishes and saves the output document, yet the
per-page PNG and the formula temp file both remain on disk afterwards — no
path of upload deletes them. -/
theorem c9_temp_files_persist :
    (∃ name msg doc,
      (upload credCfg sampleReq (.ok [sampleEnv]) true).1 = .success name doc msg) ∧
    (upload credCfg sampleReq (.ok [sampleEnv]) true).2.uploadsPagePngsRemaining = 1 ∧
    (upload credCfg sampleReq (.ok [sampleEnv]) true).2.formulaTempFilesRemaining = 1 := by
  have h := upload_ok credCfg sampleReq [sampleEnv] true rfl (by decide) (by decide)
  exact ⟨⟨_, _, _, by rw [h]⟩, by decide, by decide⟩

/-- C10: a 200-status recognition response whose formula field is the empty
string, or missing entirely, is treated exactly like an absent formula because
the field is tested for truthiness: the page's record does not depend on the
typesetting outcome (no rendering is attempted) and carries no formula image. -/
theorem c10_empty_formula_falsy (cfg : Config) (ocrText : String) (body : Json)
    (r₁ r₂ : RenderOutcome)
    (hfield : jsonGet body "latex_simplified" = some "" ∨
      jsonGet body "latex_simplified" = none) :
    processPage cfg { ocrText := ocrText, http := .response 200 body, render := r₁ } =
      processPage cfg { ocrText := ocrText, http := .response 200 body, render := r₂ } ∧
    (processPage cfg
      { ocrText := ocrText, http := .response 200 body,
        render := r₁ }).mathImage = none := by
  have key : ∀ r : RenderOutcome,
      processPage cfg { ocrText := ocrText, http := .response 200 body, render := r } =
        { text := ocrText
          mathImage := none
          networkCalled := (call_mathpix_image_b64 cfg (.response 200 body)).networkCalled
          mathpixDiagnostics := (call_mathpix_image_b64 cfg (.response 200 body)).diagnostics
          renderDiagnostics := 0 } := by
    intro r
    cases hid : truthy cfg.MATHPIX_APP_ID <;> cases hkey : truthy cfg.MATHPIX_APP_KEY
    · simp [processPage, call_mathpix_image_b64, hid, hkey]
    · simp [processPage, call_mathpix_image_b64, hid, hkey]
    · simp [processPage, call_mathpix_image_b64, hid, hkey]
    · rcases hfield with hf | hf <;>
        simp [processPage, call_mathpix_image_b64, hid, hkey, hf, ite_self,
          show ("" : String).isEmpty = true from rfl]
  exact ⟨(key r₁).trans (key r₂).symm, by rw [key r₁]⟩

/-- C10 witness: the truthiness theorem applied to a concrete 200 response
carrying an empty formula field, under two different typesetting outcomes. -/
theorem c10_witness :
    (jsonGet emptyFormulaBody "latex_simplified" = some "" ∨
      jsonGet emptyFormulaBody "latex_simplified" = none) ∧
    (processPage credCfg
        { ocrText := "hi", http := .response 200 emptyFormulaBody,
          render := .ok sampleImg } =
      processPage credCfg
        { ocrText := "hi", http := .response 200 emptyFormulaBody,
          render := .err "boom" } ∧
    (processPage credCfg
        { ocrText := "hi", http := .response 200 emptyFormulaBody,
          render := .ok sampleImg }).mathImage = none) :=
  ⟨Or.inl (by decide),
    c10_empty_formula_falsy credCfg "hi" emptyFormulaBody (.ok sampleImg) (.err "boom")
      (Or.inl (by decide))⟩
